import Mathlib

/-!
Verification development for the omnishuffle terminal music player.

The Python source is shallowly embedded: pure fragments become Lean
functions, stateful methods become explicit state-passing functions, and
environment effects (network calls, random draws, wall clock, the mpv
engine) become explicit parameters.  Floating point positions and
durations are modelled as rationals.
-/

/-- A track from any source (`omnishuffle/player.py`, dataclass `Track`).
`duration` is in seconds, `url` is the stream or YouTube URL, `source` is
one of "spotify", "pandora", "youtube". -/
structure Track where
  title : String
  artist : String
  album : String
  duration : Int
  url : String
  source : String
  artwork_url : Option String := none
  track_id : Option String := none
  deriving Repr, DecidableEq

namespace Scrobbler

/-- Constant `Scrobbler.SCROBBLE_THRESHOLD` from `omnishuffle/scrobbler.py`. -/
def SCROBBLE_THRESHOLD : ℚ := 1/2

/-- Constant `Scrobbler.SCROBBLE_MAX_TIME` from `omnishuffle/scrobbler.py` (4 minutes). -/
def SCROBBLE_MAX_TIME : ℚ := 240

/-- The scrobbler fields that `check_scrobble` and `_scrobble` read and
write: `enabled` (the `enabled` property), `current_track`, and the
`scrobbled` flag of the current session. -/
structure State where
  enabled : Bool
  current_track : Option Track
  scrobbled : Bool
  deriving Repr, DecidableEq

/-- Method `Scrobbler._scrobble` from `omnishuffle/scrobbler.py`.  `netOk` is the
outcome of the `network.scrobble` call (`true` when the remote call
returns, `false` when it raises).  Returns the new state and whether a
network submission was attempted at all. -/
def scrobbleSubmit (netOk : Bool) (s : State) : State × Bool :=
  if s.enabled && s.current_track.isSome && !s.scrobbled then
    if netOk then ({ s with scrobbled := true }, true) else (s, true)
  else
    (s, false)

/-- Method `Scrobbler.check_scrobble` from `omnishuffle/scrobbler.py`.  Returns
the new state and whether a scrobble submission was attempted on this
tick. -/
def check_scrobble (netOk : Bool) (position actual_duration : ℚ) (s : State) :
    State × Bool :=
  if !s.enabled || s.current_track.isNone || s.scrobbled then (s, false)
  else
    match s.current_track with
    | none => (s, false)
    | some track =>
      let duration : ℚ := if actual_duration > 0 then actual_duration else (track.duration : ℚ)
      if duration ≤ 0 then
        if position ≥ SCROBBLE_MAX_TIME then scrobbleSubmit netOk s else (s, false)
      else
        if position / duration ≥ SCROBBLE_THRESHOLD ∨ position ≥ SCROBBLE_MAX_TIME then
          scrobbleSubmit netOk s
        else (s, false)

/-- A concrete 100-second track used for concrete evaluations. -/
def exTrack : Track :=
  { title := "Song", artist := "Artist", album := "Album",
    duration := 100, url := "", source := "pandora" }

/-- A live scrobble session for `exTrack` that has not scrobbled yet. -/
def exSession : State :=
  { enabled := true, current_track := some exTrack, scrobbled := false }

/-- A track whose duration is unknown (declared as 0). -/
def exUnknownTrack : Track :=
  { title := "Unknown", artist := "Someone", album := "", duration := 0,
    url := "", source := "youtube" }

/-- A live scrobble session for `exUnknownTrack`. -/
def exUnknownSession : State :=
  { enabled := true, current_track := some exUnknownTrack, scrobbled := false }

/-- Every `check_scrobble` tick either leaves the state alone without an
attempt, or behaves as `scrobbleSubmit` on a state that passes the
submission guard. -/
theorem check_scrobble_cases (netOk : Bool) (pos ad : ℚ) (s : State) :
    check_scrobble netOk pos ad s = (s, false) ∨
      (check_scrobble netOk pos ad s = scrobbleSubmit netOk s ∧
        (s.enabled && s.current_track.isSome && !s.scrobbled) = true) := by
  unfold check_scrobble
  split
  · exact Or.inl rfl
  next hg =>
    have hg3 : (s.enabled = true ∧ ¬s.current_track = none) ∧ s.scrobbled = false := by
      simpa [Bool.or_eq_true, not_or] using hg
    split
    next heq => exact absurd heq hg3.1.2
    next track heq =>
      have hguard : (s.enabled && s.current_track.isSome && !s.scrobbled) = true := by
        simp [hg3.1.1, hg3.2, heq]
      by_cases had : ad > 0
      · simp only [had, if_true]
        by_cases hd : ad ≤ 0
        · rw [if_pos hd]
          by_cases hp : pos ≥ SCROBBLE_MAX_TIME
          · rw [if_pos hp]; exact Or.inr ⟨rfl, hguard⟩
          · rw [if_neg hp]; exact Or.inl rfl
        · rw [if_neg hd]
          by_cases hp : pos / ad ≥ SCROBBLE_THRESHOLD ∨ pos ≥ SCROBBLE_MAX_TIME
          · rw [if_pos hp]; exact Or.inr ⟨rfl, hguard⟩
          · rw [if_neg hp]; exact Or.inl rfl
      · simp only [had, if_false]
        by_cases hd : (track.duration : ℚ) ≤ 0
        · rw [if_pos hd]
          by_cases hp : pos ≥ SCROBBLE_MAX_TIME
          · rw [if_pos hp]; exact Or.inr ⟨rfl, hguard⟩
          · rw [if_neg hp]; exact Or.inl rfl
        · rw [if_neg hd]
          by_cases hp : pos / (track.duration : ℚ) ≥ SCROBBLE_THRESHOLD ∨ pos ≥ SCROBBLE_MAX_TIME
          · rw [if_pos hp]; exact Or.inr ⟨rfl, hguard⟩
          · rw [if_neg hp]; exact Or.inl rfl

/-- A `scrobbleSubmit` with a failing network call returns the state
unchanged. -/
theorem scrobbleSubmit_failed_id (s : State) : (scrobbleSubmit false s).1 = s := by
  unfold scrobbleSubmit
  split_ifs with h1 h2
  · exact h2.elim
  · rfl
  · rfl

/-- A `scrobbleSubmit` that attempted and whose network call succeeded
sets the `scrobbled` flag. -/
theorem scrobbleSubmit_success_flag (s : State)
    (h : (scrobbleSubmit true s).2 = true) : (scrobbleSubmit true s).1.scrobbled = true := by
  unfold scrobbleSubmit at h ⊢
  cases hg : (s.enabled && s.current_track.isSome && !s.scrobbled) with
  | true => rfl
  | false => exact absurd h (by simp [hg])

/-- A `check_scrobble` tick whose submission fails network-side leaves the
scrobbler state exactly as it was: the `scrobbled` flag is set only when
the `network.scrobble` call returns. -/
theorem check_scrobble_failed_state (pos ad : ℚ) (s : State) :
    (check_scrobble false pos ad s).1 = s := by
  rcases check_scrobble_cases false pos ad s with h | ⟨h, _⟩
  · rw [h]
  · rw [h]; exact scrobbleSubmit_failed_id s

/-- On a live unscrobbled session, `check_scrobble` attempts a submission
exactly when the claimed threshold condition holds, whatever the network
outcome will be. -/
theorem check_scrobble_trigger_iff (t : Track) (s : State) (pos ad : ℚ) (netOk : Bool)
    (he : s.enabled = true) (hc : s.current_track = some t) (hs : s.scrobbled = false) :
    ((check_scrobble netOk pos ad s).2 = true ↔
      (if (if ad > 0 then ad else (t.duration : ℚ)) ≤ 0 then pos ≥ SCROBBLE_MAX_TIME
       else (pos / (if ad > 0 then ad else (t.duration : ℚ)) ≥ SCROBBLE_THRESHOLD
              ∨ pos ≥ SCROBBLE_MAX_TIME))) := by
  have hguard : (s.enabled && s.current_track.isSome && !s.scrobbled) = true := by
    simp [he, hc, hs]
  unfold check_scrobble
  simp only [he, hc, hs, Bool.not_true, Bool.false_or, Option.isNone_some, if_false]
  by_cases had : ad > 0
  · by_cases hd : (if ad > 0 then ad else (t.duration : ℚ)) ≤ 0
    · simp only [had, if_true, hd, if_pos (by simpa [had] using hd)]
      by_cases hp : pos ≥ SCROBBLE_MAX_TIME
      · simp [hp, scrobbleSubmit, hguard]; split <;> simp
      · simp [hp]
    · simp only [had, if_true] at hd ⊢
      simp only [if_neg hd]
      by_cases hp : pos / ad ≥ SCROBBLE_THRESHOLD ∨ pos ≥ SCROBBLE_MAX_TIME
      · simp [hp, scrobbleSubmit, hguard]; split <;> simp
      · simp [hp]
  · by_cases hd : ((t.duration : ℚ)) ≤ 0
    · simp only [had, if_false, if_pos hd]
      by_cases hp : pos ≥ SCROBBLE_MAX_TIME
      · simp [hp, scrobbleSubmit, hguard]; split <;> simp
      · simp [hp]
    · simp only [had, if_false, if_neg hd]
      by_cases hp : pos / (t.duration : ℚ) ≥ SCROBBLE_THRESHOLD ∨ pos ≥ SCROBBLE_MAX_TIME
      · simp [hp, scrobbleSubmit, hguard]; split <;> simp
      · simp [hp]

/-- Once a session is marked scrobbled, no later tick submits. -/
theorem check_scrobble_after_flag (nk : Bool) (pos ad : ℚ) (s : State)
    (hs : s.scrobbled = true) : (check_scrobble nk pos ad s).2 = false := by
  unfold check_scrobble
  simp [hs]

/-- A tick whose submission attempt succeeds sets the `scrobbled` flag. -/
theorem check_scrobble_success_flag (pos ad : ℚ) (s : State)
    (hsub : (check_scrobble true pos ad s).2 = true) :
    (check_scrobble true pos ad s).1.scrobbled = true := by
  rcases check_scrobble_cases true pos ad s with h | ⟨h, _⟩
  · rw [h] at hsub; simp at hsub
  · rw [h] at hsub ⊢; exact scrobbleSubmit_success_flag s hsub

/-- Claim C1 (amended): on a live session with current track `t` and the
scrobbled flag clear, `check_scrobble position actualDuration` attempts a
scrobble submission exactly when, for effective duration `d` (equal to
`actualDuration` when positive, else the track's declared duration): if
`d ≤ 0` then `position ≥ 240`, and otherwise `position / d ≥ 1/2` or
`position ≥ 240`; and once a triggered submission has succeeded, no later
tick of that session ever submits again.  (As originally stated, with
"never triggers again" unconditional, the claim fails when the first
submission attempt fails network-side: see the counterexample.) -/
theorem C1_check_scrobble_condition (t : Track) (s : State) (pos ad : ℚ) (netOk : Bool)
    (he : s.enabled = true) (hc : s.current_track = some t) (hs : s.scrobbled = false) :
    ((check_scrobble netOk pos ad s).2 = true ↔
      (if (if ad > 0 then ad else (t.duration : ℚ)) ≤ 0 then pos ≥ SCROBBLE_MAX_TIME
       else (pos / (if ad > 0 then ad else (t.duration : ℚ)) ≥ SCROBBLE_THRESHOLD
              ∨ pos ≥ SCROBBLE_MAX_TIME)))
    ∧ ((check_scrobble true pos ad s).2 = true →
        ∀ (nk2 : Bool) (pos2 ad2 : ℚ),
          (check_scrobble nk2 pos2 ad2 (check_scrobble true pos ad s).1).2 = false) := by
  refine ⟨check_scrobble_trigger_iff t s pos ad netOk he hc hs, fun hsub nk2 pos2 ad2 => ?_⟩
  exact check_scrobble_after_flag nk2 pos2 ad2 _ (check_scrobble_success_flag pos ad s hsub)

/-- Claim C1 witness: on a live session for a 100-second track, position
120 with unknown actual duration triggers a submission, and after the
successful submission no later tick submits. -/
theorem C1_witness :
    (check_scrobble true 120 0 exSession).2 = true ∧
    ∀ (nk2 : Bool) (pos2 ad2 : ℚ),
      (check_scrobble nk2 pos2 ad2 (check_scrobble true 120 0 exSession).1).2 = false := by
  have h := C1_check_scrobble_condition exTrack exSession 120 0 true rfl rfl rfl
  have htrig : (check_scrobble true 120 0 exSession).2 = true := by
    rw [h.1]
    norm_num [exTrack, SCROBBLE_THRESHOLD, SCROBBLE_MAX_TIME]
  exact ⟨htrig, h.2 htrig⟩

/-- Claim C1 counterexample: on a live session for a 100-second track,
position 50 triggers a submission; when that submission fails
network-side the flag stays clear and the very next tick at the same
position triggers a submission again — refuting the claim's unconditional
"once it has triggered it never triggers again for that session". -/
theorem C1_counterexample :
    (check_scrobble false 50 0 exSession).2 = true ∧
    (check_scrobble false 50 0 (check_scrobble false 50 0 exSession).1).2 = true := by
  norm_num [check_scrobble, scrobbleSubmit, exSession, exTrack, SCROBBLE_THRESHOLD,
    SCROBBLE_MAX_TIME]

/-- Claim C7 (amended): scrobble submission is at most once per session
only in the success case: a successful submission sets the flag and no
later tick submits again; but a submission whose network call fails
leaves the session state completely unchanged — the flag stays clear and
the session is retried, not treated as done. -/
theorem C7_at_most_once_on_success (t : Track) (s : State) (pos ad : ℚ)
    (he : s.enabled = true) (hc : s.current_track = some t) (hs : s.scrobbled = false) :
    ((check_scrobble true pos ad s).2 = true →
        ((check_scrobble true pos ad s).1.scrobbled = true ∧
         ∀ (nk2 : Bool) (pos2 ad2 : ℚ),
           (check_scrobble nk2 pos2 ad2 (check_scrobble true pos ad s).1).2 = false))
    ∧ ((check_scrobble false pos ad s).1 = s)
    ∧ ((check_scrobble false pos ad s).2 = true →
        (check_scrobble false pos ad (check_scrobble false pos ad s).1).2 = true) := by
  refine ⟨fun hsub => ?_, check_scrobble_failed_state pos ad s, fun hsub => ?_⟩
  · have hflag := check_scrobble_success_flag pos ad s hsub
    exact ⟨hflag, fun nk2 pos2 ad2 => check_scrobble_after_flag nk2 pos2 ad2 _ hflag⟩
  · rw [check_scrobble_failed_state pos ad s]
    exact hsub

/-- Claim C7 witness: instantiating the amended at-most-once statement on
a live 100-second-track session at position 80. -/
theorem C7_witness :
    ((check_scrobble true 80 0 exSession).2 = true →
        ((check_scrobble true 80 0 exSession).1.scrobbled = true ∧
         ∀ (nk2 : Bool) (pos2 ad2 : ℚ),
           (check_scrobble nk2 pos2 ad2 (check_scrobble true 80 0 exSession).1).2 = false))
    ∧ ((check_scrobble false 80 0 exSession).1 = exSession)
    ∧ ((check_scrobble false 80 0 exSession).2 = true →
        (check_scrobble false 80 0 (check_scrobble false 80 0 exSession).1).2 = true) :=
  C7_at_most_once_on_success exTrack exSession 80 0 rfl rfl rfl

/-- Claim C7 counterexample: a first submission attempt at position 240 of
an unknown-duration track fails network-side; the session is not treated
as done — the next tick submits again (and this time succeeds, setting
the flag) — refuting "once attempted, treated as done and never
retried". -/
theorem C7_counterexample :
    (check_scrobble false 240 0 exUnknownSession).2 = true ∧
    (check_scrobble true 241 0 (check_scrobble false 240 0 exUnknownSession).1).2 = true ∧
    (check_scrobble true 241 0 (check_scrobble false 240 0 exUnknownSession).1).1.scrobbled
      = true := by
  norm_num [check_scrobble, scrobbleSubmit, exUnknownSession, exUnknownTrack,
    SCROBBLE_THRESHOLD, SCROBBLE_MAX_TIME]

end Scrobbler

namespace Player

/-- The playback backend modes of `Player.play` in `omnishuffle/player.py`:
a prefetched direct stream file (librespot), a remote Spotify Connect
device, or the local mpv engine loading a URL. -/
inductive Backend where
  | prefetchedFile (path : String)
  | remoteDevice
  | localEngine (url : String)
  deriving Repr, DecidableEq

/-- The environment a single `Player.play` call observes: whether a
Spotify source was registered (`set_spotify_source`), whether it has
direct librespot streaming, the result of `get_stream_file(track)`, the
registered Connect device id, the outcome of `play_track_on_device`, and
the wall clock. -/
structure PlayEnv where
  hasSpotifySource : Bool
  hasDirectStreaming : Bool
  streamFile : Option String
  deviceId : Option String
  remoteStartOk : Bool
  now : ℚ
  deriving Repr, DecidableEq

/-- The player fields read and written by `play`, `position` and
`duration` in `omnishuffle/player.py`. `mpv_time_pos`, `mpv_playback_time`
and `mpv_duration` model the mpv property reads (`none` = property is
`None` or the read raised). -/
structure State where
  current_track : Option Track
  paused : Bool
  using_spotify_connect : Bool
  using_librespot : Bool
  spotify_start_time : Option ℚ
  spotify_paused_position : ℚ
  temp_file : Option String
  mpv_time_pos : Option ℚ
  mpv_playback_time : Option ℚ
  mpv_duration : Option ℚ
  deriving Repr, DecidableEq

/-- The mpv fallback URL of `Player.play`: a Spotify track with no direct
http URL is played through a YouTube search directive. -/
def mpvUrl (track : Track) : String :=
  if track.source = "spotify" ∧ ¬ (track.url.startsWith "http") then
    "ytdl://ytsearch1:" ++ track.artist ++ " - " ++ track.title
  else track.url

/-- The backend mode `Player.play` selects for a track, following the
source's cascade: librespot stream file first, then Spotify Connect, then
mpv. -/
def selectBackend (env : PlayEnv) (track : Track) : Backend :=
  if track.source = "spotify" ∧ env.hasSpotifySource = true ∧ env.hasDirectStreaming = true
      ∧ env.streamFile.isSome then
    Backend.prefetchedFile (env.streamFile.getD "")
  else if track.source = "spotify" ∧ env.deviceId.isSome ∧ env.hasSpotifySource = true
      ∧ env.remoteStartOk = true then
    Backend.remoteDevice
  else
    Backend.localEngine (mpvUrl track)

/-- Method `Player.play` from `omnishuffle/player.py`: resets the mode flags,
sets the current track, clears the paused flag, and activates exactly one
backend, anchoring the synthesized position timer when remote playback
starts. -/
def play (env : PlayEnv) (track : Track) (s : State) : State :=
  match selectBackend env track with
  | Backend.prefetchedFile path =>
    { s with current_track := some track, paused := false,
             using_librespot := true, using_spotify_connect := false,
             temp_file := some path }
  | Backend.remoteDevice =>
    { s with current_track := some track, paused := false,
             using_librespot := false, using_spotify_connect := true,
             spotify_start_time := some env.now, spotify_paused_position := 0,
             temp_file := none }
  | Backend.localEngine _ =>
    { s with current_track := some track, paused := false,
             using_librespot := false, using_spotify_connect := false,
             temp_file := none }

/-- Method `Player._get_spotify_position`: the synthesized Connect position from
the local wall-clock timer. -/
def getSpotifyPosition (now : ℚ) (s : State) : ℚ :=
  if s.paused then s.spotify_paused_position
  else
    match s.spotify_start_time with
    | none => 0
    | some st => now - st + s.spotify_paused_position

/-- The `Player.position` property: the synthesized Connect position in
Connect mode, otherwise mpv's `time-pos` falling back to `playback-time`
and then 0.  It reads the state and the clock but returns only a value. -/
def position (now : ℚ) (s : State) : ℚ :=
  if s.using_spotify_connect then getSpotifyPosition now s
  else
    match s.mpv_time_pos with
    | some p => p
    | none =>
      match s.mpv_playback_time with
      | some p => p
      | none => 0

/-- The `Player.duration` property: the track's declared duration when
positive; otherwise mpv's duration — which, when positive, is also
written back (truncated to an integer) into the current track's
`duration` field. Returns the read value together with the possibly
updated state. -/
def duration (s : State) : ℚ × State :=
  match s.current_track with
  | some t =>
    if t.duration > 0 then ((t.duration : ℚ), s)
    else
      match s.mpv_duration with
      | some d =>
        if d > 0 then
          (d, { s with current_track := some { t with duration := ⌊d⌋ } })
        else (0, s)
      | none => (0, s)
  | none =>
    match s.mpv_duration with
    | some d => if d > 0 then (d, s) else (0, s)
    | none => (0, s)

/-- Claim C3: for a Spotify-sourced track (the one source with remote and
direct modes), `play` picks the backend in priority order — prefetched
direct stream file when the provider can materialize one, then the
registered remote device when the remote start succeeds, then the local
engine with the resolved URL, falling back to a YouTube search directive
when the track has no direct http URL — and exactly one mode ends up
active. -/
theorem C3_play_backend_priority (env : PlayEnv) (track : Track) (s : State)
    (hsrc : track.source = "spotify") :
    (∀ p : String, env.hasSpotifySource = true → env.hasDirectStreaming = true →
        env.streamFile = some p →
        (play env track s).using_librespot = true ∧
        (play env track s).using_spotify_connect = false ∧
        (play env track s).temp_file = some p)
    ∧ (¬(env.hasSpotifySource = true ∧ env.hasDirectStreaming = true ∧
          env.streamFile.isSome = true) →
        env.deviceId.isSome = true → env.hasSpotifySource = true → env.remoteStartOk = true →
        (play env track s).using_spotify_connect = true ∧
        (play env track s).using_librespot = false)
    ∧ (¬(env.hasSpotifySource = true ∧ env.hasDirectStreaming = true ∧
          env.streamFile.isSome = true) →
        ¬(env.deviceId.isSome = true ∧ env.hasSpotifySource = true ∧
          env.remoteStartOk = true) →
        (play env track s).using_spotify_connect = false ∧
        (play env track s).using_librespot = false ∧
        selectBackend env track = Backend.localEngine (mpvUrl track) ∧
        (¬(track.url.startsWith "http") = true →
          mpvUrl track = "ytdl://ytsearch1:" ++ track.artist ++ " - " ++ track.title))
    ∧ ¬((play env track s).using_librespot = true ∧
        (play env track s).using_spotify_connect = true) := by
  refine ⟨?_, ?_, ?_, ?_⟩
  · intro p hss hds hsf
    unfold play selectBackend
    simp [hsrc, hss, hds, hsf]
  · intro hnot1 hdev hss hok
    unfold play selectBackend
    have h1 : ¬(track.source = "spotify" ∧ env.hasSpotifySource = true ∧
        env.hasDirectStreaming = true ∧ env.streamFile.isSome) := by
      intro ⟨_, a, b, c⟩; exact hnot1 ⟨a, b, c⟩
    rw [if_neg h1, if_pos ⟨hsrc, hdev, hss, hok⟩]
    exact ⟨rfl, rfl⟩
  · intro hnot1 hnot2
    unfold play selectBackend
    have h1 : ¬(track.source = "spotify" ∧ env.hasSpotifySource = true ∧
        env.hasDirectStreaming = true ∧ env.streamFile.isSome) := by
      intro ⟨_, a, b, c⟩; exact hnot1 ⟨a, b, c⟩
    have h2 : ¬(track.source = "spotify" ∧ env.deviceId.isSome ∧
        env.hasSpotifySource = true ∧ env.remoteStartOk = true) := by
      intro ⟨_, a, b, c⟩; exact hnot2 ⟨a, b, c⟩
    rw [if_neg h1, if_neg h2]
    refine ⟨rfl, rfl, rfl, ?_⟩
    intro hurl
    unfold mpvUrl
    rw [if_pos ⟨hsrc, by simpa using hurl⟩]
  · unfold play
    cases hb : selectBackend env track <;> simp

/-- A Spotify track with no http URL, declared duration 0. -/
def exSpotifyTrack : Track :=
  { title := "Tune", artist := "Band", album := "LP", duration := 0,
    url := "", source := "spotify" }

/-- An environment where librespot can materialize a stream file. -/
def exDirectEnv : PlayEnv :=
  { hasSpotifySource := true, hasDirectStreaming := true,
    streamFile := some "/tmp/omnishuffle_x.ogg", deviceId := some "dev1",
    remoteStartOk := true, now := 1000 }

/-- An idle player state. -/
def exIdleState : State :=
  { current_track := none, paused := false, using_spotify_connect := false,
    using_librespot := false, spotify_start_time := none,
    spotify_paused_position := 0, temp_file := none, mpv_time_pos := none,
    mpv_playback_time := none, mpv_duration := none }

/-- Claim C3 witness: with a materializable stream file, direct-file mode
wins and the mode flags are exclusive. -/
theorem C3_witness :
    ((play exDirectEnv exSpotifyTrack exIdleState).using_librespot = true ∧
     (play exDirectEnv exSpotifyTrack exIdleState).using_spotify_connect = false ∧
     (play exDirectEnv exSpotifyTrack exIdleState).temp_file = some "/tmp/omnishuffle_x.ogg")
    ∧ ¬((play exDirectEnv exSpotifyTrack exIdleState).using_librespot = true ∧
        (play exDirectEnv exSpotifyTrack exIdleState).using_spotify_connect = true) := by
  have h := C3_play_backend_priority exDirectEnv exSpotifyTrack exIdleState rfl
  exact ⟨h.1 "/tmp/omnishuffle_x.ogg" rfl rfl rfl, h.2.2.2⟩

/-- A playing state whose current track has unknown declared duration
while mpv has already measured 100.5 seconds. -/
def exMeasuredState : State :=
  { current_track := some exSpotifyTrack, paused := false,
    using_spotify_connect := false, using_librespot := false,
    spotify_start_time := none, spotify_paused_position := 0,
    temp_file := none, mpv_time_pos := some 10, mpv_playback_time := some 10,
    mpv_duration := some (201/2) }

/-- Claim C10 (amended): `position` is embedded as a pure read — a
function of the state and the wall clock that writes nothing.  `duration`
leaves every adapter field except `current_track` unchanged, and leaves
`current_track` unchanged whenever the track's declared duration is
positive or there is no current track; but when the declared duration is
not positive and mpv reports a positive duration `d`, it writes `⌊d⌋`
into the current track's `duration` field (the source comments this write:
"Update track duration for scrobbling"). -/
theorem C10_duration_frame (s : State) :
    ((duration s).2.paused = s.paused
      ∧ (duration s).2.using_spotify_connect = s.using_spotify_connect
      ∧ (duration s).2.using_librespot = s.using_librespot
      ∧ (duration s).2.spotify_start_time = s.spotify_start_time
      ∧ (duration s).2.spotify_paused_position = s.spotify_paused_position
      ∧ (duration s).2.temp_file = s.temp_file
      ∧ (duration s).2.mpv_time_pos = s.mpv_time_pos
      ∧ (duration s).2.mpv_playback_time = s.mpv_playback_time
      ∧ (duration s).2.mpv_duration = s.mpv_duration)
    ∧ (∀ t, s.current_track = some t → t.duration > 0 → (duration s).2 = s)
    ∧ (s.current_track = none → (duration s).2 = s)
    ∧ (∀ t d, s.current_track = some t → ¬(t.duration > 0) → s.mpv_duration = some d →
        d > 0 → (duration s).2.current_track = some { t with duration := d.floor }) := by
  refine ⟨?_, ?_, ?_, ?_⟩
  · unfold duration
    split
    · split
      · simp
      · split
        · split <;> simp
        · simp
    · split
      · split <;> simp
      · simp
  · intro t ht hd
    unfold duration
    rw [ht]
    simp [hd]
  · intro hn
    rcases hm : s.mpv_duration with _ | d
    · unfold duration; rw [hn, hm]
    · unfold duration
      rw [hn, hm]
      show (if d > 0 then (d, s) else ((0 : ℚ), s)).2 = s
      split_ifs <;> rfl
  · intro t d ht hd hm hdpos
    unfold duration
    rw [ht]
    simp [hd, hm, hdpos]
    try rfl

/-- Claim C10 witness: with a positive declared duration the read changes
nothing, instantiated on a concrete playing state. -/
theorem C10_witness :
    (duration { exMeasuredState with
        current_track := some { exSpotifyTrack with duration := 180 } }).2
      = { exMeasuredState with
            current_track := some { exSpotifyTrack with duration := 180 } } :=
  (C10_duration_frame _).2.1 { exSpotifyTrack with duration := 180 } rfl (by norm_num)

/-- Claim C10 counterexample: with declared duration 0 and mpv reporting
100.5 seconds, reading `duration` mutates the adapter — it writes 100
into the current track's `duration` field, so the state after the read
differs from the state before. -/
theorem C10_counterexample :
    (duration exMeasuredState).2.current_track
        = some { exSpotifyTrack with duration := 100 }
      ∧ (duration exMeasuredState).2 ≠ exMeasuredState := by
  have h1 : (duration exMeasuredState).2.current_track
      = some { exSpotifyTrack with duration := 100 } := by
    have hfl : ⌊(201 : ℚ)/2⌋ = 100 := by norm_num
    norm_num [duration, exMeasuredState, exSpotifyTrack, hfl]
  refine ⟨h1, fun h => ?_⟩
  rw [h] at h1
  simp [exMeasuredState, exSpotifyTrack] at h1

end Player

namespace Sources

/-- A playlist reference as assembled by each source's `get_playlists`:
id, display name, and track count. -/
structure PlaylistRef where
  id : String
  name : String
  track_count : Nat
  deriving Repr, DecidableEq

/-- One playlist item as the Spotify Web API returns it. -/
structure SpotifyPlaylistItem where
  id : String
  name : String
  total : Nat
  deriving Repr, DecidableEq

/-- A Pandora station as pydora returns it. -/
structure Station where
  id : String
  name : String
  deriving Repr, DecidableEq

/-- One library playlist as ytmusicapi returns it. -/
structure YtPlaylistItem where
  playlistId : String
  title : String
  count : Nat
  deriving Repr, DecidableEq

/-- The page loop of `SpotifySource.get_playlists`: each remote call
(`current_user_playlists`, then `sp.next` per page) either returns a page
of items or raises; the loop has no try/except, so the first raising call
propagates. -/
def spotifyCollectPages :
    List (Except String (List SpotifyPlaylistItem)) → Except String (List PlaylistRef)
  | [] => Except.ok []
  | Except.error e :: _ => Except.error e
  | Except.ok items :: rest =>
    match spotifyCollectPages rest with
    | Except.error e => Except.error e
    | Except.ok tail =>
      Except.ok (items.map (fun it => ⟨it.id, it.name, it.total⟩) ++ tail)

/-- Method `SpotifySource.get_playlists` from `omnishuffle/sources/spotify.py`:
returns `[]` when no client is configured, otherwise pages through the
remote results with no exception handler. -/
def spotifyGetPlaylists (clientConfigured : Bool)
    (pages : List (Except String (List SpotifyPlaylistItem))) :
    Except String (List PlaylistRef) :=
  if !clientConfigured then Except.ok []
  else spotifyCollectPages pages

/-- Method `PandoraSource.get_playlists` from `omnishuffle/sources/pandora.py`:
returns `[]` when no client, and the remote `get_station_list` call is
wrapped in try/except returning `[]` on any error. -/
def pandoraGetPlaylists (clientConfigured : Bool)
    (remote : Except String (List Station)) : Except String (List PlaylistRef) :=
  if !clientConfigured then Except.ok []
  else
    match remote with
    | Except.error _ => Except.ok []
    | Except.ok stations => Except.ok (stations.map (fun s => ⟨s.id, s.name, 0⟩))

/-- Method `YouTubeSource.get_playlists` from `omnishuffle/sources/youtube.py`:
returns `[]` when no client, and the remote `get_library_playlists` call
is wrapped in try/except returning `[]` on any error. -/
def youtubeGetPlaylists (clientAvailable : Bool)
    (remote : Except String (List YtPlaylistItem)) : Except String (List PlaylistRef) :=
  if !clientAvailable then Except.ok []
  else
    match remote with
    | Except.error _ => Except.ok []
    | Except.ok items => Except.ok (items.map (fun p => ⟨p.playlistId, p.title, p.count⟩))

/-- Claim C6 (amended): Pandora's and YouTube's `get_playlists` return the
empty list for every error raised by the underlying client; Spotify's
`get_playlists` returns the empty list when no client is configured but
has no exception handler — the first failing remote page call propagates
its exception to the caller. -/
theorem C6_get_playlists_error_handling :
    (∀ e : String, ∀ c : Bool, pandoraGetPlaylists c (Except.error e) = Except.ok [])
    ∧ (∀ e : String, ∀ c : Bool, youtubeGetPlaylists c (Except.error e) = Except.ok [])
    ∧ (∀ pages : List (Except String (List SpotifyPlaylistItem)),
        spotifyGetPlaylists false pages = Except.ok [])
    ∧ (∀ (okpages : List (List SpotifyPlaylistItem)) (e : String)
        (rest : List (Except String (List SpotifyPlaylistItem))),
        spotifyGetPlaylists true (okpages.map Except.ok ++ Except.error e :: rest)
          = Except.error e) := by
  refine ⟨?_, ?_, ?_, ?_⟩
  · intro e c
    unfold pandoraGetPlaylists
    cases c <;> rfl
  · intro e c
    unfold youtubeGetPlaylists
    cases c <;> rfl
  · intro pages
    rfl
  · intro okpages e rest
    unfold spotifyGetPlaylists
    induction okpages with
    | nil => rfl
    | cons page tail ih =>
      simp only [Bool.not_true, Bool.false_eq_true, if_false] at ih
      show spotifyCollectPages
          (Except.ok page :: (tail.map Except.ok ++ Except.error e :: rest)) = Except.error e
      rw [spotifyCollectPages, ih]

/-- Claim C6 counterexample: when the Spotify client is configured and the
first remote page call raises, the exception propagates out of
`get_playlists` instead of yielding `[]` — refuting "for every provider
variant ... the operation's result is [] and no exception propagates". -/
theorem C6_counterexample :
    spotifyGetPlaylists true [Except.error "HTTP 500: server error"]
        = Except.error "HTTP 500: server error"
      ∧ spotifyGetPlaylists true [Except.error "HTTP 500: server error"]
        ≠ Except.ok [] := by
  exact ⟨rfl, by simp [spotifyGetPlaylists, spotifyCollectPages]⟩

/-- The librespot-session state that `get_audio_stream`/`get_stream_file`
read and write: availability, how many full-audio downloads have been
performed, and a counter modelling `tempfile.mkstemp` freshness. -/
structure LibrespotState where
  available : Bool
  downloadCount : Nat
  nextTempId : Nat
  deriving Repr, DecidableEq

/-- The fresh temp path `tempfile.mkstemp(suffix=".ogg",
prefix="omnishuffle_")` produces, modelled by a counter. -/
def tempPath (n : Nat) : String :=
  "omnishuffle_" ++ toString n ++ ".ogg"

/-- Method `SpotifySource.get_audio_stream`: loads and reads the entire audio
stream via librespot (one full download per successful call). `audio` is
the remote outcome: `none` when the call raises or yields no data. -/
def get_audio_stream (audio : Option String) (track : Track) (s : LibrespotState) :
    Option String × LibrespotState :=
  if !s.available || track.track_id.isNone then (none, s)
  else
    match audio with
    | none => (none, s)
    | some data => (some data, { s with downloadCount := s.downloadCount + 1 })

/-- Method `SpotifySource.get_stream_file`: downloads the audio and writes it to
a fresh temp file, returning the new path — no caching of a previous
result. -/
def get_stream_file (audio : Option String) (track : Track) (s : LibrespotState) :
    Option String × LibrespotState :=
  match get_audio_stream audio track s with
  | (none, s1) => (none, s1)
  | (some _, s1) =>
    (some (tempPath s1.nextTempId), { s1 with nextTempId := s1.nextTempId + 1 })

/-- Method `SpotifySource.get_stream_url`: Spotify plays via Connect, so the
resolved stream URL is always empty. -/
def spotifyGetStreamUrl (track : Track) : String := ""

/-- Method `PandoraSource.get_stream_url`: Pandora tracks already carry their
direct audio URL. -/
def pandoraGetStreamUrl (track : Track) : String := track.url

/-- Claim C8 (amended): `get_stream_url` for Spotify and Pandora is a pure
function of the track (repeated calls return the same reference with no
side effects), but the prefetched-direct-file path is not idempotent:
every successful `get_stream_file` call performs a fresh full download
and materializes a fresh temp file, so two successive calls download
twice and return two different paths. -/
theorem C8_resolve_stream (t : Track) (s : LibrespotState) (data : String)
    (hava : s.available = true) (hid : t.track_id.isNone = false) :
    pandoraGetStreamUrl t = t.url ∧ spotifyGetStreamUrl t = "" ∧
    (get_stream_file (some data) t s).1 = some (tempPath s.nextTempId) ∧
    ((get_stream_file (some data) t s).2).downloadCount = s.downloadCount + 1 ∧
    (get_stream_file (some data) t ((get_stream_file (some data) t s).2)).1
        = some (tempPath (s.nextTempId + 1)) ∧
    ((get_stream_file (some data) t ((get_stream_file (some data) t s).2)).2).downloadCount
        = s.downloadCount + 2 := by
  refine ⟨rfl, rfl, ?_, ?_, ?_, ?_⟩ <;>
    simp [get_stream_file, get_audio_stream, hava, hid]

/-- A resolved Spotify track carrying a service id, used for concrete
stream-resolution runs. -/
def exResolvedTrack : Track :=
  { title := "Hit", artist := "Star", album := "Best Of", duration := 200,
    url := "", source := "spotify", track_id := some "4uLU6hMCjMI75M1A2tKUQC" }

/-- Claim C8 witness: the amended stream-resolution facts instantiated on
a fresh librespot session. -/
theorem C8_witness :
    pandoraGetStreamUrl exResolvedTrack = exResolvedTrack.url ∧
    spotifyGetStreamUrl exResolvedTrack = "" ∧
    (get_stream_file (some "OggS") exResolvedTrack ⟨true, 0, 0⟩).1 = some (tempPath 0) ∧
    ((get_stream_file (some "OggS") exResolvedTrack ⟨true, 0, 0⟩).2).downloadCount = 0 + 1 ∧
    (get_stream_file (some "OggS") exResolvedTrack
        ((get_stream_file (some "OggS") exResolvedTrack ⟨true, 0, 0⟩).2)).1
      = some (tempPath (0 + 1)) ∧
    ((get_stream_file (some "OggS") exResolvedTrack
        ((get_stream_file (some "OggS") exResolvedTrack ⟨true, 0, 0⟩).2)).2).downloadCount
      = 0 + 2 :=
  C8_resolve_stream exResolvedTrack ⟨true, 0, 0⟩ "OggS" rfl rfl

/-- Claim C8 counterexample: two successive `get_stream_file` calls for
the same track on a fresh session download the audio twice and return two
distinct temp paths — refuting "calling it twice performs no duplicated
side effects; the prefetched-direct-file path must not re-download". -/
theorem C8_counterexample :
    ((get_stream_file (some "OggS") exResolvedTrack
        ((get_stream_file (some "OggS") exResolvedTrack ⟨true, 0, 0⟩).2)).2).downloadCount
      = 2
    ∧ (get_stream_file (some "OggS") exResolvedTrack ⟨true, 0, 0⟩).1
        = some "omnishuffle_0.ogg"
    ∧ (get_stream_file (some "OggS") exResolvedTrack
        ((get_stream_file (some "OggS") exResolvedTrack ⟨true, 0, 0⟩).2)).1
        = some "omnishuffle_1.ogg"
    ∧ ("omnishuffle_0.ogg" : String) ≠ "omnishuffle_1.ogg" := by
  refine ⟨rfl, rfl, rfl, by decide⟩

end Sources

namespace ConfigModule

/-- The module-level names `omnishuffle/config.py` defines (its imports
plus its own definitions). -/
def configDefinedNames : List String :=
  ["os", "json", "Path", "Any", "Dict", "DEFAULT_CONFIG", "get_config_dir",
   "get_config_path", "load_config", "save_config", "update_config"]

/-- The names `omnishuffle/main.py` line 26 imports from
`omnishuffle.config`. -/
def mainConfigImports : List String :=
  ["load_config", "get_config_dir", "add_banned", "is_banned"]

/-- Python `from M import a, b, ...` semantics: the import succeeds iff
every imported name is defined in the module's namespace; a missing name
raises ImportError at import time. -/
def fromImport (defined imports : List String) : Except String Unit :=
  if imports.all (fun n => defined.contains n) then Except.ok ()
  else Except.error "ImportError"

end ConfigModule

namespace Coordinator

/-- Modelled from the spec: `add_banned` is imported by
`omnishuffle/main.py` from `omnishuffle.config` but is defined nowhere in
this source snapshot (claim C5); spec section 6 describes the ban-list
store as "`addBanned(artist, title)` — simple persisted set,
case-insensitive key". -/
def add_banned (banned : List (String × String)) (artist title : String) :
    List (String × String) :=
  banned ++ [(artist.toLower, title.toLower)]

/-- Modelled from the spec: `is_banned` is imported but missing like
`add_banned`; spec section 6 describes it as "`isBanned(artist, title) ->
bool`" over the same case-insensitive persisted set. -/
def is_banned (banned : List (String × String)) (artist title : String) : Bool :=
  decide ((artist.toLower, title.toLower) ∈ banned)

/-- The `OmniShuffle` coordinator fields that `load_queue`, `play_next`,
`_refill_pandora_if_needed` and `ban_current` read and write, together
with the persisted ban list and the names of the configured sources. -/
structure OmniState where
  queue : List Track
  history : List Track
  current_track : Option Track
  playing_next : Bool
  current_genres : List String
  current_loved : Bool
  current_scrobbled : Bool
  current_position : ℚ
  banned : List (String × String)
  sources : List String

/-- The environment one coordinator operation observes: the per-provider
track fetches `load_queue` would receive, `random.shuffle` as an opaque
permutation, the tracks a Pandora refill fetch returns, and the stream of
`random.randint` draws. -/
structure CoordEnv where
  providerResults : List (List Track)
  shuffle : List Track → List Track
  refillResult : List Track
  rng : Nat → Nat

/-- Method `OmniShuffle.load_queue` from `omnishuffle/main.py`: each configured
source's fetched tracks are filtered against the persisted ban list,
concatenated, and the result is shuffled and replaces the queue. -/
def load_queue (env : CoordEnv) (s : OmniState) : OmniState :=
  { s with queue := env.shuffle ((env.providerResults.map
      (fun ts => ts.filter (fun t => !is_banned s.banned t.artist t.title))).join) }

/-- Per-source `get_stream_url` as `play_next` resolves it: Spotify
returns the empty string (Connect playback), Pandora and YouTube return
the track's own URL. -/
def streamUrlOf (t : Track) : String :=
  if t.source = "spotify" then "" else t.url

/-- The `track.url = source.get_stream_url(track)` step of `play_next`:
applied only when the track's source is configured. -/
def resolveTrackUrl (sources : List String) (t : Track) : Track :=
  if sources.contains t.source then { t with url := streamUrlOf t } else t

/-- The trigger condition of `OmniShuffle._refill_pandora_if_needed`:
fewer than 3 Pandora tracks in the queue and a Pandora source configured.
Only Pandora has a refill path in the source. -/
def refill_needed (s : OmniState) : Bool :=
  (s.queue.countP (fun t => t.source = "pandora") < 3 : Bool)
    && s.sources.contains "pandora"

/-- The body of `OmniShuffle.play_next` once the reentrancy guard has
been taken: move the current track to history, reload the queue if empty,
check the Pandora refill condition (the refill itself runs on a daemon
thread, reported here as the returned flag), pop the front track, resolve
its stream URL, make it current and clear the per-track display state;
the `finally` block drops the guard on every path. -/
def play_next_body (env : CoordEnv) (s : OmniState) : OmniState × Bool :=
  let s1 := match s.current_track with
    | some t => { s with history := s.history ++ [t] }
    | none => s
  let s2 := if s1.queue.isEmpty then load_queue env s1 else s1
  let spawned := refill_needed s2
  match s2.queue with
  | [] => ({ s2 with playing_next := false }, spawned)
  | track :: rest =>
    ({ s2 with
        queue := rest,
        current_track := some (resolveTrackUrl s2.sources track),
        current_genres := [], current_loved := false,
        current_scrobbled := false, current_position := 0,
        playing_next := false }, spawned)

/-- Method `OmniShuffle.play_next`: returns immediately when the `_playing_next`
reentrancy guard is held, otherwise takes the guard and runs the body. -/
def play_next (env : CoordEnv) (s : OmniState) : OmniState × Bool :=
  if s.playing_next then (s, false)
  else play_next_body env { s with playing_next := true }

/-- Two overlapping `play_next` invocations: the first passes the guard
check and sets the guard; the second invocation then runs to completion
while the guard is held; finally the first invocation's body completes. -/
def play_next_overlapped (env : CoordEnv) (s : OmniState) : OmniState × Bool :=
  let s1 : OmniState := { s with playing_next := true }
  let s2 := (play_next env s1).1
  play_next_body env s2

/-- Method `OmniShuffle.ban_current`: a no-op without a current track; otherwise
records the current track's artist+title in the persisted ban list (the
provider-side thumbs-down has no coordinator-state effect) and advances
via `play_next`. -/
def ban_current (env : CoordEnv) (s : OmniState) : OmniState :=
  match s.current_track with
  | none => s
  | some t => (play_next env { s with banned := add_banned s.banned t.artist t.title }).1

/-- Python `list.insert(pos, track)` on the queue: Python clamps an index beyond
the end to an append, as `take`/`drop` do. -/
def insertAt (l : List Track) (i : Nat) (t : Track) : List Track :=
  l.take i ++ t :: l.drop i

/-- The splice loop of the Pandora refill task: each fetched track is
inserted at `random.randint(0, max(1, len(queue)))` — a bounded draw
recomputed against the queue's length at each insertion. -/
def refill_splice (rng : Nat → Nat) (k : Nat) (newTracks q : List Track) : List Track :=
  match newTracks with
  | [] => q
  | t :: ts =>
    refill_splice rng (k + 1) ts (insertAt q (rng k % (max 1 q.length + 1)) t)

/-- The `load_queue` step writes only the queue: the ban list and the configured
sources are untouched. -/
theorem load_queue_frame (env : CoordEnv) (s : OmniState) :
    (load_queue env s).banned = s.banned ∧ (load_queue env s).sources = s.sources :=
  ⟨rfl, rfl⟩

/-- The `play_next` body never writes the ban list or the source set. -/
theorem play_next_body_frame (env : CoordEnv) (s : OmniState) :
    (play_next_body env s).1.banned = s.banned ∧ (play_next_body env s).1.sources = s.sources := by
  refine ⟨?_, ?_⟩
  all_goals
    unfold play_next_body load_queue
    split <;> dsimp only <;> split_ifs <;> split <;> simp_all

/-- The `play_next` operation never writes the ban list or the source set. -/
theorem play_next_frame (env : CoordEnv) (s : OmniState) :
    (play_next env s).1.banned = s.banned ∧ (play_next env s).1.sources = s.sources := by
  unfold play_next
  split_ifs
  · exact ⟨rfl, rfl⟩
  · exact play_next_body_frame env { s with playing_next := true }

/-- When the guard is free and the queue nonempty, the refill flag a
`play_next` call reports is exactly the Pandora refill condition on the
incoming state. -/
theorem play_next_spawn (env : CoordEnv) (s : OmniState) (hg : s.playing_next = false)
    (hq : s.queue ≠ []) :
    (play_next env s).2 = refill_needed s := by
  unfold play_next play_next_body
  rw [if_neg (by simp [hg])]
  have hqe : ({ s with playing_next := true } : OmniState).queue.isEmpty = false := by
    simpa [List.isEmpty_iff] using hq
  cases hct : s.current_track with
  | none =>
    simp only [hct, hqe, if_false]
    rcases hqq : s.queue with _ | ⟨u, rest⟩
    · exact absurd hqq hq
    · simp [hqq, refill_needed]
  | some c =>
    simp only [hct]
    have hqe2 : ({ s with playing_next := true, history := s.history ++ [c] } :
        OmniState).queue.isEmpty = false := by
      simpa [List.isEmpty_iff] using hq
    simp only [hqe2, if_false]
    rcases hqq : s.queue with _ | ⟨u, rest⟩
    · exact absurd hqq hq
    · simp [hqq, refill_needed]

/-- Claim C2: when `play_next` is invoked while the reentrancy guard is
already held, it returns immediately with the state unchanged; so a pair
of overlapping `play_next` calls on a state with a current track and a
nonempty queue performs exactly one transition — history grows by exactly
one (the old current track), the queue shrinks by exactly one, and the
current track becomes the resolved front of the queue. -/
theorem C2_play_next_reentrancy (env : CoordEnv) (s : OmniState) (c u : Track)
    (rest : List Track) (hg : s.playing_next = false) (hc : s.current_track = some c)
    (hq : s.queue = u :: rest) :
    play_next env { s with playing_next := true } = ({ s with playing_next := true }, false)
    ∧ (play_next_overlapped env s).1.history = s.history ++ [c]
    ∧ (play_next_overlapped env s).1.queue = rest
    ∧ (play_next_overlapped env s).1.current_track = some (resolveTrackUrl s.sources u)
    ∧ (play_next_overlapped env s).1.history.length = s.history.length + 1
    ∧ (play_next_overlapped env s).1.queue.length + 1 = s.queue.length := by
  have hpn : play_next env { s with playing_next := true }
      = ({ s with playing_next := true }, false) := by
    unfold play_next
    rw [if_pos rfl]
  have hov : play_next_overlapped env s
      = play_next_body env { s with playing_next := true } := by
    unfold play_next_overlapped
    dsimp only
    rw [hpn]
  have hbody : (play_next_body env { s with playing_next := true }).1
      = { s with
            playing_next := false,
            history := s.history ++ [c],
            queue := rest,
            current_track := some (resolveTrackUrl s.sources u),
            current_genres := [], current_loved := false,
            current_scrobbled := false, current_position := 0 } := by
    unfold play_next_body
    simp only [hc]
    have hqe : (({ s with playing_next := true } : OmniState).history ++ [c],
        ({ s with playing_next := true } : OmniState).queue).2.isEmpty = false := by
      simpa [List.isEmpty_iff, hq] using List.cons_ne_nil u rest
    simp [hq]
  rw [hov, hbody]
  refine ⟨hpn, rfl, rfl, rfl, ?_, ?_⟩ <;> simp [hq]

/-- An always-identity shuffle stand-in used in concrete runs; the real
`random.shuffle` is any permutation. -/
def idShuffle : List Track → List Track := fun l => l

/-- A deterministic coordinator environment for concrete runs. -/
def exCoordEnv : CoordEnv :=
  { providerResults := [], shuffle := idShuffle, refillResult := [], rng := fun _ => 0 }

/-- A Pandora track used in concrete queue states. -/
def pTrack : Track :=
  { title := "P1", artist := "PA", album := "", duration := 120,
    url := "http://audio/p1", source := "pandora" }

/-- A second Pandora track. -/
def pTrack2 : Track :=
  { title := "P2", artist := "PB", album := "", duration := 130,
    url := "http://audio/p2", source := "pandora" }

/-- A third Pandora track. -/
def pTrack3 : Track :=
  { title := "P3", artist := "PC", album := "", duration := 140,
    url := "http://audio/p3", source := "pandora" }

/-- A concrete coordinator state: a current track and three queued
Pandora tracks, guard free. -/
def exPlayState : OmniState :=
  { queue := [pTrack, pTrack2, pTrack3], history := [], current_track := some pTrack2,
    playing_next := false, current_genres := [], current_loved := false,
    current_scrobbled := false, current_position := 0, banned := [],
    sources := ["spotify", "pandora"] }

/-- Claim C2 witness: the overlapping-call guarantees instantiated on a
concrete three-track state. -/
theorem C2_witness :
    play_next exCoordEnv { exPlayState with playing_next := true }
        = ({ exPlayState with playing_next := true }, false)
    ∧ (play_next_overlapped exCoordEnv exPlayState).1.history
        = exPlayState.history ++ [pTrack2]
    ∧ (play_next_overlapped exCoordEnv exPlayState).1.queue = [pTrack2, pTrack3]
    ∧ (play_next_overlapped exCoordEnv exPlayState).1.current_track
        = some (resolveTrackUrl exPlayState.sources pTrack)
    ∧ (play_next_overlapped exCoordEnv exPlayState).1.history.length
        = exPlayState.history.length + 1
    ∧ (play_next_overlapped exCoordEnv exPlayState).1.queue.length + 1
        = exPlayState.queue.length :=
  C2_play_next_reentrancy exCoordEnv exPlayState pTrack2 pTrack [pTrack2, pTrack3]
    rfl rfl rfl

/-- Claim C4: banning the current track appends its lower-cased
artist+title key to the persisted ban list, later `play_next` calls never
remove it, and every subsequent `load_queue` — whatever each provider
returns and however the shuffle permutes — excludes every track matching
that key case-insensitively. -/
theorem C4_ban_excludes (env env2 env3 : CoordEnv) (s : OmniState) (t : Track)
    (hc : s.current_track = some t)
    (hshuffle : ∀ (l : List Track) (x : Track), x ∈ env2.shuffle l → x ∈ l) :
    (t.artist.toLower, t.title.toLower) ∈ (ban_current env s).banned
    ∧ (play_next env3 (ban_current env s)).1.banned = (ban_current env s).banned
    ∧ (∀ u : Track, u ∈ (load_queue env2 (ban_current env s)).queue →
        ¬(u.artist.toLower = t.artist.toLower ∧ u.title.toLower = t.title.toLower)) := by
  have hban : (ban_current env s).banned = add_banned s.banned t.artist t.title := by
    unfold ban_current
    rw [hc]
    exact (play_next_frame env _).1
  refine ⟨?_, (play_next_frame env3 _).1, ?_⟩
  · rw [hban]
    unfold add_banned
    simp
  · intro u hu hmatch
    unfold load_queue at hu
    simp only at hu
    have hu2 := hshuffle _ _ hu
    rw [List.mem_join] at hu2
    obtain ⟨l, hl, hul⟩ := hu2
    rw [List.mem_map] at hl
    obtain ⟨ts, _, rfl⟩ := hl
    rw [List.mem_filter] at hul
    have hnb := hul.2
    rw [hban] at hnb
    unfold is_banned add_banned at hnb
    simp [hmatch.1, hmatch.2] at hnb

/-- A track with the same ban-list key (artist+title) as `pTrack2` but a
different URL and source. -/
def pTrack2Alias : Track :=
  { title := "P2", artist := "PB", album := "", duration := 130,
    url := "http://audio/p2-alt", source := "youtube" }

/-- An environment whose single provider returns only the alias of the
banned track. -/
def exBanEnv : CoordEnv :=
  { providerResults := [[pTrack2Alias]], shuffle := idShuffle, refillResult := [],
    rng := fun _ => 0 }

/-- Claim C4 witness: after banning the current track `pTrack2`, its key
is in the ban list, a later `play_next` keeps it there, and a provider
returning the same-key alias `pTrack2Alias` cannot put it back in the
queue. -/
theorem C4_witness :
    (pTrack2.artist.toLower, pTrack2.title.toLower)
        ∈ (ban_current exCoordEnv exPlayState).banned
    ∧ (play_next exCoordEnv (ban_current exCoordEnv exPlayState)).1.banned
        = (ban_current exCoordEnv exPlayState).banned
    ∧ (pTrack2Alias ∈ (load_queue exBanEnv (ban_current exCoordEnv exPlayState)).queue
        → False) := by
  have h := C4_ban_excludes exCoordEnv exBanEnv exCoordEnv exPlayState pTrack2 rfl
    (fun l x hx => hx)
  exact ⟨h.1, h.2.1, fun hmem => h.2.2 pTrack2Alias hmem ⟨rfl, rfl⟩⟩

/-- Inserting one element anywhere grows the list by exactly one, Python
`list.insert` clamping included. -/
theorem insertAt_length (l : List Track) (i : Nat) (t : Track) :
    (insertAt l i t).length = l.length + 1 := by
  unfold insertAt
  simp only [List.length_append, List.length_cons, List.length_take, List.length_drop]
  omega

/-- The refill splice loop grows the queue by exactly the number of
fetched tracks, wherever the per-insertion random draws land. -/
theorem refill_splice_length (rng : Nat → Nat) (newTracks : List Track) :
    ∀ (k : Nat) (q : List Track),
      (refill_splice rng k newTracks q).length = q.length + newTracks.length := by
  induction newTracks with
  | nil => intro k q; rfl
  | cons t ts ih =>
    intro k q
    rw [refill_splice, ih, insertAt_length]
    simp only [List.length_cons]
    omega

/-- Claim C9 (amended): with the guard free and a nonempty queue,
`play_next` triggers the asynchronous fetch-and-splice exactly when fewer
than 3 queued tracks are Pandora tracks and a Pandora source is
configured — Pandora is the only provider with a refill path — and the
splice inserts each fetched track at a bounded random index drawn against
the queue's length at that insertion, growing the queue by exactly the
batch size. -/
theorem C9_refill_pandora_only (env : CoordEnv) (s : OmniState)
    (hg : s.playing_next = false) (hq : s.queue ≠ []) :
    ((play_next env s).2 = true ↔
        (s.queue.countP (fun t => t.source = "pandora") < 3
          ∧ s.sources.contains "pandora" = true))
    ∧ (∀ (rng : Nat → Nat) (k : Nat) (newTracks q : List Track),
        (refill_splice rng k newTracks q).length = q.length + newTracks.length) := by
  refine ⟨?_, fun rng k newTracks q => refill_splice_length rng newTracks k q⟩
  rw [play_next_spawn env s hg hq]
  unfold refill_needed
  simp [Bool.and_eq_true, decide_eq_true_iff]

/-- A coordinator state with only one Pandora track queued. -/
def exLowPandoraState : OmniState :=
  { queue := [pTrack], history := [], current_track := some pTrack2,
    playing_next := false, current_genres := [], current_loved := false,
    current_scrobbled := false, current_position := 0, banned := [],
    sources := ["spotify", "pandora"] }

/-- Claim C9 witness: the amended refill characterization instantiated on
a one-Pandora-track queue, where the refill really fires. -/
theorem C9_witness :
    ((play_next exCoordEnv exLowPandoraState).2 = true ↔
        (exLowPandoraState.queue.countP (fun t => t.source = "pandora") < 3
          ∧ exLowPandoraState.sources.contains "pandora" = true))
    ∧ (∀ (rng : Nat → Nat) (k : Nat) (newTracks q : List Track),
        (refill_splice rng k newTracks q).length = q.length + newTracks.length) :=
  C9_refill_pandora_only exCoordEnv exLowPandoraState rfl (by simp [exLowPandoraState])

/-- Claim C9 counterexample: Spotify is configured and has zero tracks in
a queue of three Pandora tracks — fewer than 3 — yet `play_next` triggers
no fetch-and-splice at all, because only Pandora has a refill path;
refuting "for every configured provider". -/
theorem C9_counterexample :
    exPlayState.sources.contains "spotify" = true
    ∧ exPlayState.queue.countP (fun t => t.source = "spotify") < 3
    ∧ (play_next exCoordEnv exPlayState).2 = false := by
  refine ⟨rfl, by decide, ?_⟩
  rw [play_next_spawn exCoordEnv exPlayState rfl (by simp [exPlayState])]
  decide

end Coordinator

/-- Claim C5: `omnishuffle/main.py` imports `add_banned` and `is_banned`
from `omnishuffle.config`, but the config module defines neither name, so
importing the main module raises ImportError — no operation of the
application is reachable in this source snapshot. -/
theorem C5_main_import_fails :
    ConfigModule.fromImport ConfigModule.configDefinedNames ConfigModule.mainConfigImports
        = Except.error "ImportError"
    ∧ ConfigModule.configDefinedNames.contains "add_banned" = false
    ∧ ConfigModule.configDefinedNames.contains "is_banned" = false :=
  ⟨rfl, rfl, rfl⟩
